import Mathlib

/-!
Verification of the omophub-python request/response pipeline.

The repository ships its resource layer (src/omophub/resources), its type
declarations and its unit tests under src/, but the core pipeline modules
(omophub/_exceptions.py, omophub/_http.py, omophub/_request.py,
omophub/_pagination.py, omophub/_client.py) are not under src/.  Those
parts are modelled from the specification, kept consistent with the unit
tests that exercise them (src/tests/unit).  Each such definition carries a
doc comment saying exactly what is modelled.  The resource-layer functions
(Search.similar, AsyncSearch.semantic_iter) are embedded directly from
src/omophub/resources/search.py.
-/

namespace OmopHub

/-- A JSON value, as produced by parsing a response body.  Numbers are
modelled as rationals (Python floats/ints in the envelopes of interest are
exact decimals). -/
inductive JValue where
  | null : JValue
  | bool (b : Bool) : JValue
  | num (q : Rat) : JValue
  | str (s : String) : JValue
  | arr (xs : List JValue) : JValue
  | obj (fields : List (String × JValue)) : JValue

/-- First-match lookup in a JSON object's field list (Python dict keys are
unique, so first-match agrees with dict lookup). -/
def lookupField : List (String × JValue) → String → Option JValue
  | [], _ => none
  | (k, v) :: rest, key => if k = key then some v else lookupField rest key

/-- Python's dict.get on a JSON value: a key lookup that yields none on
non-objects and on missing keys. -/
def JValue.getKey : JValue → String → Option JValue
  | .obj fields, key => lookupField fields key
  | _, _ => none

/-- True for JSON mappings and lists (the payload shapes the envelope
unwrap cares about). -/
def JValue.isContainer : JValue → Bool
  | .obj _ => true
  | .arr _ => true
  | _ => false

/-- The data carried by every HTTP-status-driven error: message, the status
that produced it, and the optional request id, machine error code and
structured details (spec section 3, mirrored by omophub/_exceptions.py's
APIError as exercised in src/tests/unit/test_exceptions.py). -/
structure APIErrorData where
  message : String
  status_code : Option Nat
  request_id : Option String
  error_code : Option String
  details : Option JValue

/-- The closed error taxonomy of spec section 7, mirroring the exception
classes imported by src/tests/unit/test_exceptions.py.  The base-class
raise used for undecodable bodies is `decodeError`; `rateLimitError`
additionally carries the retry-after seconds. -/
inductive SDKError where
  | decodeError (message : String) : SDKError
  | connectionError (message : String) : SDKError
  | timeoutError (message : String) : SDKError
  | validationError (e : APIErrorData) : SDKError
  | authenticationError (e : APIErrorData) : SDKError
  | notFoundError (e : APIErrorData) : SDKError
  | rateLimitError (e : APIErrorData) (retry_after : Option Nat) : SDKError
  | serverError (e : APIErrorData) : SDKError
  | apiError (e : APIErrorData) : SDKError

/-- The kind of a typed error, used to state classification facts without
fixing incidental message texts. -/
inductive ErrKind where
  | decode | connection | timeout | validation | auth | notFound
  | rateLimit | server | api
deriving DecidableEq, Repr

/-- Project a typed error to its taxonomy kind. -/
def SDKError.kind : SDKError → ErrKind
  | .decodeError _ => .decode
  | .connectionError _ => .connection
  | .timeoutError _ => .timeout
  | .validationError _ => .validation
  | .authenticationError _ => .auth
  | .notFoundError _ => .notFound
  | .rateLimitError _ _ => .rateLimit
  | .serverError _ => .server
  | .apiError _ => .api

/-- Modelled from the spec: omophub/_exceptions.py's raise_for_status is
not under src/; this follows the status table of spec section 4.3, as
exercised by TestRaiseForStatus in src/tests/unit/test_exceptions.py.
Returns the one typed error that the Python function raises. -/
def raise_for_status (status : Nat) (message : String) (request_id : Option String)
    (error_code : Option String) (details : Option JValue)
    (retry_after : Option Nat) : SDKError :=
  let e : APIErrorData := ⟨message, some status, request_id, error_code, details⟩
  if status = 400 then .validationError e
  else if status = 401 ∨ status = 403 then .authenticationError e
  else if status = 404 then .notFoundError e
  else if status = 429 then .rateLimitError e retry_after
  else if 500 ≤ status ∧ status ≤ 599 then .serverError e
  else .apiError e

/-- Case-exact lookup of a response header (the test doubles use exact
header names). -/
def getHeader (headers : List (String × String)) (key : String) : Option String :=
  (headers.find? (fun p => p.1 = key)).map (fun p => p.2)

/-- Decimal-digit accumulator for header values. -/
def parseDigits : List Char → Nat → Option Nat
  | [], acc => some acc
  | c :: rest, acc =>
    if c.isDigit then parseDigits rest (acc * 10 + (c.toNat - 48)) else none

/-- Parse a header value as a nonnegative decimal integer (the shape the
service sends in Retry-After). -/
def parseNatHeader (s : String) : Option Nat :=
  match s.data with
  | [] => none
  | cs => parseDigits cs 0

/-- Modelled from the spec: the Retry-After response header is parsed as an
integer number of seconds when present (spec sections 4.3 and 6). -/
def parseRetryAfter (headers : List (String × String)) : Option Nat :=
  (getHeader headers "Retry-After").bind parseNatHeader

/-- An HTTP response as the Transport hands it to the decoder: status code,
body (none models bytes that are not valid JSON), response headers. -/
structure Response where
  status : Nat
  body : Option JValue
  headers : List (String × String)

/-- Message of the error envelope: error.message when present, else a
generic default (spec section 4.2). -/
def errorMessageOf (body : JValue) : String :=
  match (body.getKey "error").bind (fun e => e.getKey "message") with
  | some (.str s) => s
  | _ => "API request failed"

/-- Machine error code of the error envelope, when present. -/
def errorCodeOf (body : JValue) : Option String :=
  match (body.getKey "error").bind (fun e => e.getKey "code") with
  | some (.str s) => some s
  | _ => none

/-- Structured details of the error envelope, when present. -/
def errorDetailsOf (body : JValue) : Option JValue :=
  (body.getKey "error").bind (fun e => e.getKey "details")

/-- Classify a non-2xx response with a parsed body: extract the error
envelope, the X-Request-Id header and the Retry-After header, and hand
them to the status classifier (spec section 4.2). -/
def classifyResponse (resp : Response) (body : JValue) : SDKError :=
  raise_for_status resp.status (errorMessageOf body)
    (getHeader resp.headers "X-Request-Id") (errorCodeOf body)
    (errorDetailsOf body) (parseRetryAfter resp.headers)

/-- 2xx test on a status code. -/
def isSuccessStatus (status : Nat) : Bool :=
  decide (200 ≤ status) && decide (status < 300)

/-- Unwrap the response envelope: the value at the body's data key when the
body is a mapping containing it, else the whole body (spec section 4.2). -/
def unwrapData (body : JValue) : JValue :=
  match body with
  | .obj fields =>
    match lookupField fields "data" with
    | some v => v
    | none => .obj fields
  | b => b

/-- Modelled from the spec: omophub/_request.py's response handling for
Request.get and Request.post is not under src/; this follows spec section
4.2, except on one point where the unit tests pin a different behavior: a
non-2xx response whose body is not valid JSON is classified by status code
with a generic HTTP message (test_json_decode_error_on_error_status in
src/tests/unit/test_request.py expects ServerError for a 500 with a
non-JSON body), while only an undecodable 2xx body raises the base decode
error whose message includes Invalid JSON. -/
def handleResponse (resp : Response) : Except SDKError JValue :=
  match resp.body with
  | none =>
    if isSuccessStatus resp.status then
      .error (.decodeError "Invalid JSON response")
    else
      .error (raise_for_status resp.status ("HTTP " ++ toString resp.status ++ " error")
        (getHeader resp.headers "X-Request-Id") none none (parseRetryAfter resp.headers))
  | some body =>
    if isSuccessStatus resp.status then
      .ok (unwrapData body)
    else
      .error (classifyResponse resp body)

/-- Modelled from the spec: omophub/_request.py's Request.get_raw is not
under src/; same parse and classification path as handleResponse, but the
full parsed body (including meta) is returned on success (spec sections
4.2 and 4.4). -/
def handleResponseRaw (resp : Response) : Except SDKError JValue :=
  match resp.body with
  | none =>
    if isSuccessStatus resp.status then
      .error (.decodeError "Invalid JSON response")
    else
      .error (raise_for_status resp.status ("HTTP " ++ toString resp.status ++ " error")
        (getHeader resp.headers "X-Request-Id") none none (parseRetryAfter resp.headers))
  | some body =>
    if isSuccessStatus resp.status then
      .ok body
    else
      .error (classifyResponse resp body)

/-- Kind of the error of a pipeline result, none on success. -/
def resultErrKind (r : Except SDKError JValue) : Option ErrKind :=
  match r with
  | .error e => some e.kind
  | .ok _ => none

/-- The retry-after seconds carried by a rate-limit failure result, none
otherwise. -/
def resultRetryAfter (r : Except SDKError JValue) : Option Nat :=
  match r with
  | .error (.rateLimitError _ ra) => ra
  | _ => none

/-- True exactly when the result is the base decode error whose message
mentions Invalid JSON. -/
def isInvalidJsonFailure (r : Except SDKError JValue) : Bool :=
  match r with
  | .error (.decodeError m) => m = "Invalid JSON response"
  | _ => false

/-- has_next flag of a pagination metadata mapping: true only when the
has_next key holds boolean true; false when the flag is false, missing,
or not a boolean (malformed metadata is out of scope; the envelopes carry
booleans). -/
def hasNextTrue (meta : JValue) : Bool :=
  match meta.getKey "has_next" with
  | some (.bool b) => b
  | _ => false

/-- Observable record of one pagination run over a page-fetch function:
the pages requested in order, the items yielded in order, and the typed
error the fetch raised, if any (an error ends the run). -/
structure PageRun (α : Type) where
  pages : List Nat
  items : List α
  failure : Option SDKError

/-- Modelled from the spec: omophub/_pagination.py's paginate_sync is not
under src/; this follows the algorithm of spec section 4.5 as exercised by
TestPaginateSync in src/tests/unit/test_pagination.py: fetch a page, yield
its items in order, stop when the metadata is absent or its has_next flag
is not true, else advance to the next page.  Fuel bounds the number of
pages inspected and is only a modelling artifact for the non-terminating
fetch functions the Python generator would also never finish on. -/
def paginateFrom (fetch : Nat → Nat → Except SDKError (List α × Option JValue))
    (size : Nat) : Nat → Nat → PageRun α
  | _, 0 => ⟨[], [], none⟩
  | page, fuel + 1 =>
    match fetch page size with
    | .error e => ⟨[page], [], some e⟩
    | .ok (items, meta) =>
      match meta with
      | none => ⟨[page], items, none⟩
      | some m =>
        if hasNextTrue m then
          let rest := paginateFrom fetch size (page + 1) fuel
          ⟨page :: rest.pages, items ++ rest.items, rest.failure⟩
        else ⟨[page], items, none⟩

/-- Modelled from the spec: one pagination run starts at page 1 (spec
section 4.5 step 1). -/
def paginate_sync (fetch : Nat → Nat → Except SDKError (List α × Option JValue))
    (size fuel : Nat) : PageRun α :=
  paginateFrom fetch size 1 fuel

/-- Continuation test at one page of a pure page-fetch function: true when
the returned metadata is present with its has_next flag boolean true. -/
def contAt (fetch : Nat → Nat → List α × Option JValue) (size page : Nat) : Bool :=
  match (fetch page size).2 with
  | some m => hasNextTrue m
  | none => false

/-- Outcome of one attempted network exchange, indexed by attempt number:
a response, a connection-level failure, or a timeout. -/
inductive ExchangeOutcome where
  | success (resp : Response) : ExchangeOutcome
  | connectFailure (message : String) : ExchangeOutcome
  | timeoutFailure (message : String) : ExchangeOutcome

/-- Modelled from the spec: omophub/_http.py's retry loop is not under
src/; follows spec section 4.1 as exercised by TestSyncHTTPClient in
src/tests/unit/test_http.py: a connection-level failure is retried while
retries remain, exhaustion raises the Connection failure, a timeout is
raised at once and never retried, a response (any status) is returned at
once.  The second component counts how many times the exchange ran. -/
def attemptLoop (exchange : Nat → ExchangeOutcome) :
    Nat → Nat → Except SDKError Response × Nat
  | remaining, attempt =>
    match exchange attempt with
    | .success r => (.ok r, attempt + 1)
    | .timeoutFailure m => (.error (.timeoutError ("Request timed out: " ++ m)), attempt + 1)
    | .connectFailure m =>
      match remaining with
      | 0 => (.error (.connectionError ("Connection error: " ++ m)), attempt + 1)
      | r + 1 => attemptLoop exchange r (attempt + 1)

/-- Modelled from the spec: Transport.request with a configured maximum of
additional attempts; the first attempt is attempt 0. -/
def transportRequest (exchange : Nat → ExchangeOutcome) (max_retries : Nat) :
    Except SDKError Response × Nat :=
  attemptLoop exchange max_retries 0

/-- A query-parameter value as handed to the request pipeline: absent,
scalar, or a list of strings. -/
inductive ParamValue where
  | null : ParamValue
  | str (s : String) : ParamValue
  | num (n : Int) : ParamValue
  | bool (b : Bool) : ParamValue
  | list (xs : List String) : ParamValue
deriving DecidableEq, Repr

/-- Modelled from the spec: serialization of one query-parameter value
(spec section 4.1): absent values serialize to nothing, lists to a single
comma-joined value, booleans to true or false literals. -/
def serializeParam : ParamValue → Option String
  | .null => none
  | .str s => some s
  | .num n => some (toString n)
  | .bool b => some (if b then "true" else "false")
  | .list xs => some (String.intercalate "," xs)

/-- Modelled from the spec: the emitted query pairs of a params mapping,
in order, with absent-valued keys omitted entirely (omophub/_http.py's
params filtering is not under src/; exercised by
test_request_filters_none_params in src/tests/unit/test_http.py). -/
def buildQueryPairs (params : List (String × ParamValue)) : List (String × String) :=
  params.filterMap (fun p => (serializeParam p.2).map (fun v => (p.1, v)))

/-- True exactly for the absent parameter value. -/
def ParamValue.isNull : ParamValue → Bool
  | .null => true
  | _ => false

/-- Percent-encoding of the characters relevant to the emitted query
strings of this pipeline (comma and space). -/
def encodeChar (c : Char) : String :=
  if c = ',' then "%2C" else if c = ' ' then "%20" else String.singleton c

/-- Percent-encode one query component. -/
def encodeComponent (s : String) : String :=
  String.join (s.data.map encodeChar)

/-- Modelled from the spec: the emitted query string, percent-encoded as
needed (exercised by test_build_query_string_with_list_param in
src/tests/unit/test_pagination.py). -/
def queryStringOf (params : List (String × ParamValue)) : String :=
  String.intercalate "&"
    ((buildQueryPairs params).map (fun p => p.1 ++ "=" ++ encodeComponent p.2))

/-- Transport client state: the lazily created underlying connection
object (by identifier), plus how many connection objects were ever
created.  client none means released or not yet created. -/
structure HTTPClientState where
  client : Option Nat
  created : Nat
deriving DecidableEq, Repr

/-- Modelled from the spec: _get_client lazily creates one underlying
connection object on first use and reuses it afterwards (spec section 4.1,
exercised by test_client_reuse in src/tests/unit/test_http.py). -/
def getClient (s : HTTPClientState) : HTTPClientState × Nat :=
  match s.client with
  | some c => (s, c)
  | none => (⟨some s.created, s.created + 1⟩, s.created)

/-- Modelled from the spec: close releases the underlying connection
object; it is a total operation (it cannot fail) and never creates a
connection (spec section 4.1; test_close_idempotent in
src/tests/unit/test_http.py). -/
def closeClient (s : HTTPClientState) : HTTPClientState :=
  ⟨none, s.created⟩

/-- Strip every trailing slash from a base URL (the client strips the
configured base URL once at construction; exercised by
test_client_base_url_trailing_slash_removed in
src/tests/unit/test_client.py). -/
def stripTrailingSlashes (s : String) : String :=
  String.mk ((s.data.reverse.dropWhile (fun c => c = '/')).reverse)

/-- Immutable facade configuration fixed at client construction. -/
structure ClientConfig where
  api_key : String
  base_url : String
deriving DecidableEq, Repr

/-- Modelled from the spec: omophub/_client.py's OMOPHub.__init__ and
AsyncOMOPHub.__init__ are not under src/; both resolve the explicit
api_key argument, falling back to the module-level default_api_key, and
raise AuthenticationError at construction time when neither is set,
before any transport object is used (spec section 9 and
test_client_requires_api_key in src/tests/unit/test_client.py).  The
construction is pure: no network exchange is involved. -/
def clientInit (api_key : Option String) (default_api_key : Option String)
    (base_url : String) : Except SDKError ClientConfig :=
  match api_key.orElse (fun _ => default_api_key) with
  | some k => .ok ⟨k, stripTrailingSlashes base_url⟩
  | none => .error (.authenticationError ⟨"No API key provided", none, none, none, none⟩)

/-- Embeds the input_count computation of Search.similar and
AsyncSearch.similar (src/src/omophub/resources/search.py lines 420 and
658): how many of concept_id, concept_name, query are not None. -/
def similarInputCount (concept_id : Option Int) (concept_name : Option String)
    (query : Option String) : Nat :=
  (if concept_id.isSome then 1 else 0) + (if concept_name.isSome then 1 else 0) +
    (if query.isSome then 1 else 0)

/-- Embeds Search.similar and AsyncSearch.similar from
src/src/omophub/resources/search.py (lines 375..451 and 633..689; the two
bodies are identical modulo await): validate that exactly one of
concept_id, concept_name, query was provided, then assemble the POST body
field by field, truthiness-guarded exactly as in the source (empty lists
and empty strings are falsy, page_size is sent only when it differs from
20).  The value is the (path, body) pair handed to the facade's post, or
the ValueError message. -/
def similarRequest (concept_id : Option Int) (concept_name : Option String)
    (query : Option String) (algorithm : String) (similarity_threshold : Rat)
    (page_size : Int) (vocabulary_ids : Option (List String))
    (domain_ids : Option (List String)) (standard_concept : Option String)
    (include_invalid : Option Bool) (include_scores : Option Bool)
    (include_explanations : Option Bool) :
    Except String (String × List (String × JValue)) :=
  if similarInputCount concept_id concept_name query ≠ 1 then
    .error "Exactly one of concept_id, concept_name, or query must be provided"
  else
    let body : List (String × JValue) :=
      [("algorithm", JValue.str algorithm),
       ("similarity_threshold", JValue.num similarity_threshold)]
      ++ (match concept_id with
          | some c => [("concept_id", JValue.num (c : Rat))]
          | none => [])
      ++ (match concept_name with
          | some s => [("concept_name", JValue.str s)]
          | none => [])
      ++ (match query with
          | some s => [("query", JValue.str s)]
          | none => [])
      ++ (if page_size ≠ 20 then [("page_size", JValue.num (page_size : Rat))] else [])
      ++ (match vocabulary_ids with
          | some (x :: xs) => [("vocabulary_ids", JValue.arr ((x :: xs).map JValue.str))]
          | _ => [])
      ++ (match domain_ids with
          | some (x :: xs) => [("domain_ids", JValue.arr ((x :: xs).map JValue.str))]
          | _ => [])
      ++ (match standard_concept with
          | some s => if s = "" then [] else [("standard_concept", JValue.str s)]
          | none => [])
      ++ (match include_invalid with
          | some b => [("include_invalid", JValue.bool b)]
          | none => [])
      ++ (match include_scores with
          | some b => [("include_scores", JValue.bool b)]
          | none => [])
      ++ (match include_explanations with
          | some b => [("include_explanations", JValue.bool b)]
          | none => [])
    .ok ("/search/similar", body)

/-- Iterating a JSON value as the source's for-loop iterates the extracted
semantic results: a list yields its elements, anything else yields nothing
(the service returns lists here; iteration of malformed payload shapes is
out of scope). -/
def iterItems : JValue → List JValue
  | .arr xs => xs
  | _ => []

/-- Embeds the per-page extraction written identically in
Search.semantic_iter's fetch_page and in AsyncSearch.semantic_iter
(src/src/omophub/resources/search.py lines 368..371 and 619..623): data is
result.get("data", a default empty list); results is data.get("results",
data) when data is a mapping, else data; meta is the pagination mapping
under meta, when present. -/
def semanticExtract (result : JValue) : List JValue × Option JValue :=
  let data := (result.getKey "data").getD (.arr [])
  let results :=
    match data with
    | .obj fields => (lookupField fields "results").getD (.obj fields)
    | d => d
  let meta := ((result.getKey "meta").getD (.obj [])).getKey "pagination"
  (iterItems results, meta)

/-- Embeds Search.semantic_iter (src/src/omophub/resources/search.py lines
321..373): the blocking variant builds a fetch_page closure around the
facade's get_raw and delegates to paginate_sync.  The raw envelope fetch
is abstracted as a function of page number and page size: query, filters
and path are fixed for one iteration, and under a fixed mocked transport
the facade is a function of the page parameters.  The value is the yielded
item sequence plus the typed error that ended the run, if any. -/
def syncSemanticIter (fetchRaw : Nat → Nat → Except SDKError JValue)
    (page_size fuel : Nat) : List JValue × Option SDKError :=
  let run := paginate_sync (fun page size => (fetchRaw page size).map semanticExtract)
    page_size fuel
  (run.items, run.failure)

/-- Embeds AsyncSearch.semantic_iter (src/src/omophub/resources/search.py
lines 584..631): the non-blocking variant is an inline loop starting at
page 1 that fetches the raw envelope, yields the extracted results, stops
when the pagination metadata is absent or its has_next flag is not true,
and otherwise advances the page.  Fuel bounds the pages inspected, exactly
as for paginateFrom. -/
def asyncSemanticIterFrom (fetchRaw : Nat → Nat → Except SDKError JValue)
    (page_size : Nat) : Nat → Nat → List JValue × Option SDKError
  | _, 0 => ([], none)
  | page, fuel + 1 =>
    match fetchRaw page page_size with
    | .error e => ([], some e)
    | .ok result =>
      let (results, meta) := semanticExtract result
      match meta with
      | none => (results, none)
      | some m =>
        if hasNextTrue m then
          let rest := asyncSemanticIterFrom fetchRaw page_size (page + 1) fuel
          (results ++ rest.1, rest.2)
        else (results, none)

/-- The non-blocking semantic iteration, started at page 1 as in the
source. -/
def asyncSemanticIter (fetchRaw : Nat → Nat → Except SDKError JValue)
    (page_size fuel : Nat) : List JValue × Option SDKError :=
  asyncSemanticIterFrom fetchRaw page_size 1 fuel

/-- Claim C1: for every HTTP error status the classifier produces exactly
the typed kind of the status table: 400 a Validation failure, 401 and 403
Authentication failures, 404 a Not-found failure, 429 a Rate-limit
failure carrying the retry_after parsed from a Retry-After header holding
an integer number of seconds, every status in 500..599 a Server failure,
and any other 4xx the generic API failure still carrying status code,
message and request id. -/
theorem classify_status_table (m : String) (rid ec : Option String)
    (d : Option JValue) (ra : Option Nat) :
    raise_for_status 400 m rid ec d ra = .validationError ⟨m, some 400, rid, ec, d⟩
    ∧ raise_for_status 401 m rid ec d ra = .authenticationError ⟨m, some 401, rid, ec, d⟩
    ∧ raise_for_status 403 m rid ec d ra = .authenticationError ⟨m, some 403, rid, ec, d⟩
    ∧ raise_for_status 404 m rid ec d ra = .notFoundError ⟨m, some 404, rid, ec, d⟩
    ∧ raise_for_status 429 m rid ec d ra = .rateLimitError ⟨m, some 429, rid, ec, d⟩ ra
    ∧ (∀ s, 500 ≤ s → s ≤ 599 →
        raise_for_status s m rid ec d ra = .serverError ⟨m, some s, rid, ec, d⟩)
    ∧ (∀ s, 400 ≤ s → s < 500 → s ∉ ([400, 401, 403, 404, 429] : List Nat) →
        raise_for_status s m rid ec d ra = .apiError ⟨m, some s, rid, ec, d⟩)
    ∧ parseRetryAfter [("Retry-After", "60")] = some 60
    ∧ (∀ b hs, resultErrKind (handleResponse ⟨429, some b, hs⟩) = some ErrKind.rateLimit
        ∧ resultRetryAfter (handleResponse ⟨429, some b, hs⟩) = parseRetryAfter hs) := by
  refine ⟨rfl, rfl, rfl, rfl, rfl, ?_, ?_, by decide, fun b hs => ⟨rfl, rfl⟩⟩
  · intro s h1 h2
    unfold raise_for_status
    rw [if_neg (by omega), if_neg (by rintro (h | h) <;> omega), if_neg (by omega),
      if_neg (by omega), if_pos ⟨h1, h2⟩]
  · intro s h1 h2 hnot
    simp only [List.mem_cons, List.not_mem_nil, or_false] at hnot
    push_neg at hnot
    obtain ⟨n400, n401, n403, n404, n429⟩ := hnot
    unfold raise_for_status
    rw [if_neg n400, if_neg (by rintro (h | h) <;> simp_all), if_neg n404, if_neg n429,
      if_neg (by rintro ⟨h5, _⟩; omega)]

/-- Witness for C1 at concrete inputs: the quantified 5xx and generic-4xx
rows evaluated at 502 and 418. -/
theorem classify_status_table_witness :
    raise_for_status 502 "Bad gateway" none none none none =
      .serverError ⟨"Bad gateway", some 502, none, none, none⟩
    ∧ raise_for_status 418 "teapot" none none none none =
      .apiError ⟨"teapot", some 418, none, none, none⟩
    ∧ resultRetryAfter (handleResponse ⟨429, some (.obj []), [("Retry-After", "60")]⟩) =
        some 60 := by
  refine ⟨?_, ?_, ?_⟩
  · exact (classify_status_table "Bad gateway" none none none none).2.2.2.2.2.1 502
      (by omega) (by omega)
  · exact (classify_status_table "teapot" none none none none).2.2.2.2.2.2.1 418
      (by omega) (by omega) (by decide)
  · have h := ((classify_status_table "x" none none none none).2.2.2.2.2.2.2.2
      (.obj []) [("Retry-After", "60")]).2
    have h60 : parseRetryAfter [("Retry-After", "60")] = some 60 := by decide
    rw [h, h60]

/-- Claim C2: for every 2xx response whose body parses as JSON, get
returns the value at the body's data key when that key is present (and
the value is a mapping or list), returns the whole parsed body when data
is absent, and get_raw always returns the full parsed body. -/
theorem envelope_unwrap (status : Nat) (hs : List (String × String))
    (h1 : 200 ≤ status) (h2 : status < 300) :
    (∀ fields v, lookupField fields "data" = some v → v.isContainer = true →
      handleResponse ⟨status, some (.obj fields), hs⟩ = .ok v)
    ∧ (∀ fields, lookupField fields "data" = none →
      handleResponse ⟨status, some (.obj fields), hs⟩ = .ok (.obj fields))
    ∧ (∀ body, handleResponseRaw ⟨status, some body, hs⟩ = .ok body) := by
  have hsucc : isSuccessStatus status = true := by
    simp only [isSuccessStatus, Bool.and_eq_true, decide_eq_true_eq]
    omega
  refine ⟨?_, ?_, ?_⟩
  · intro fields v hdata _
    simp [handleResponse, hsucc, unwrapData, hdata]
  · intro fields hdata
    simp [handleResponse, hsucc, unwrapData, hdata]
  · intro body
    simp [handleResponseRaw, hsucc]

/-- Witness for C2: a 200 response with a data mapping unwraps to it, a
200 body without data is returned whole, and get_raw keeps meta. -/
theorem envelope_unwrap_witness :
    handleResponse ⟨200, some (.obj [("success", .bool true),
        ("data", .obj [("concept_id", .num 123)])]), []⟩ =
      .ok (.obj [("concept_id", .num 123)])
    ∧ handleResponse ⟨200, some (.obj [("concept_id", .num 123)]), []⟩ =
      .ok (.obj [("concept_id", .num 123)])
    ∧ handleResponseRaw ⟨200, some (.obj [("data", .arr []),
        ("meta", .obj [("pagination", .obj [("page", .num 1)])])]), []⟩ =
      .ok (.obj [("data", .arr []),
        ("meta", .obj [("pagination", .obj [("page", .num 1)])])]) := by
  refine ⟨?_, ?_, ?_⟩
  · exact (envelope_unwrap 200 [] (by omega) (by omega)).1 _ _ rfl rfl
  · exact (envelope_unwrap 200 [] (by omega) (by omega)).2.1 _ rfl
  · exact (envelope_unwrap 200 [] (by omega) (by omega)).2.2 _

/-- Claim C3 as stated is false on this code: a 500 response whose body is
not valid JSON is not surfaced as the Invalid JSON decode error — it is
classified by status code and raised as the Server failure, exactly as
test_json_decode_error_on_error_status in src/tests/unit/test_request.py
expects. -/
theorem decode_failure_counterexample :
    isInvalidJsonFailure (handleResponse ⟨500, none, []⟩) = false
    ∧ resultErrKind (handleResponse ⟨500, none, []⟩) = some ErrKind.server := by
  exact ⟨rfl, rfl⟩

/-- Claim C3 amended: a 2xx response whose body is not valid JSON raises
the generic SDK-level decode error whose message includes Invalid JSON
(on both the unwrapping and the raw path); on a non-2xx status the
status-code classification takes priority and the status-mapped typed
error is raised, with a generic HTTP message and the request id and
Retry-After headers still honored. -/
theorem decode_failure_status_priority (status : Nat) (hs : List (String × String)) :
    (200 ≤ status → status < 300 →
      handleResponse ⟨status, none, hs⟩ = .error (.decodeError "Invalid JSON response")
      ∧ handleResponseRaw ⟨status, none, hs⟩ = .error (.decodeError "Invalid JSON response"))
    ∧ (¬ (200 ≤ status ∧ status < 300) →
      handleResponse ⟨status, none, hs⟩ =
        .error (raise_for_status status ("HTTP " ++ toString status ++ " error")
          (getHeader hs "X-Request-Id") none none (parseRetryAfter hs))) := by
  constructor
  · intro h1 h2
    have hsucc : isSuccessStatus status = true := by
      simp only [isSuccessStatus, Bool.and_eq_true, decide_eq_true_eq]
      omega
    exact ⟨by simp [handleResponse, hsucc], by simp [handleResponseRaw, hsucc]⟩
  · intro h
    have hsucc : isSuccessStatus status = false := by
      simp only [isSuccessStatus, Bool.and_eq_false_iff, decide_eq_false_iff_not]
      omega
    simp [handleResponse, hsucc]

/-- Witness for the amended C3: an undecodable 200 body raises the decode
error, an undecodable 503 body is classified as a Server failure. -/
theorem decode_failure_status_priority_witness :
    handleResponse ⟨200, none, []⟩ = .error (.decodeError "Invalid JSON response")
    ∧ handleResponse ⟨503, none, []⟩ =
      .error (raise_for_status 503 ("HTTP " ++ toString 503 ++ " error")
        (getHeader [] "X-Request-Id") none none (parseRetryAfter [])) := by
  exact ⟨((decode_failure_status_priority 200 []).1 (by omega) (by omega)).1,
    (decode_failure_status_priority 503 []).2 (by omega)⟩

/-- One pagination run over a pure page-fetch function that continues
through the pages before start + (n - 1) and stops there (metadata absent
or has_next not true) fetches exactly the n pages from start upward and
yields their items in page order. -/
theorem paginateFrom_pure_run {α : Type} (fetch : Nat → Nat → List α × Option JValue)
    (size : Nat) :
    ∀ n start fuel, 1 ≤ n → n ≤ fuel →
    (∀ p, start ≤ p → p < start + (n - 1) → contAt fetch size p = true) →
    contAt fetch size (start + (n - 1)) = false →
    paginateFrom (fun p s => .ok (fetch p s)) size start fuel =
      ⟨List.range' start n,
        ((List.range' start n).map (fun p => (fetch p size).1)).flatten, none⟩ := by
  intro n
  induction n with
  | zero => intro start fuel h1; omega
  | succ n ih =>
    intro start fuel _ hfuel hcont hstop
    rw [Nat.add_sub_cancel] at hstop hcont
    obtain ⟨f, rfl⟩ : ∃ f, fuel = f + 1 := ⟨fuel - 1, by omega⟩
    cases hf : fetch start size with
    | mk items meta =>
      cases meta with
      | none =>
        have hc : contAt fetch size start = false := by simp [contAt, hf]
        have hn : n = 0 := by
          by_contra hne
          have htrue := hcont start (le_refl start) (by omega)
          rw [htrue] at hc
          exact absurd hc (by decide)
        subst hn
        simp [paginateFrom, hf, List.range'_one]
      | some m =>
        have hcm : contAt fetch size start = hasNextTrue m := by simp [contAt, hf]
        cases n with
        | zero =>
          rw [Nat.add_zero] at hstop
          rw [hcm] at hstop
          simp [paginateFrom, hf, hstop, List.range'_one]
        | succ k =>
          have htrue : hasNextTrue m = true := by
            rw [← hcm]
            exact hcont start (le_refl start) (by omega)
          have ihres := ih (start + 1) f (by omega) (by omega)
            (fun p hp1 hp2 => hcont p (by omega) (by omega))
            (by rw [show start + 1 + (k + 1 - 1) = start + (k + 1) from by omega]
                exact hstop)
          simp only [paginateFrom, hf, htrue, if_true]
          rw [ihres]
          simp [List.range'_succ, hf]

/-- Claim C4: the pagination engine starts at page 1, yields each fetched
page's items in page order, terminates the first time the returned
metadata is absent or its has_next flag is false or missing, and never
requests a further page after that: when the continuation flag holds for
pages 1..n-1 and fails at page n, exactly pages 1, ..., n are fetched (in
that order, each once) and their items are yielded in page order. -/
theorem paginate_terminates {α : Type} (fetch : Nat → Nat → List α × Option JValue)
    (size n fuel : Nat) (h1 : 1 ≤ n) (hfuel : n ≤ fuel)
    (hcont : ∀ p, 1 ≤ p → p < n → contAt fetch size p = true)
    (hstop : contAt fetch size n = false) :
    paginate_sync (fun p s => .ok (fetch p s)) size fuel =
      ⟨List.range' 1 n,
        ((List.range' 1 n).map (fun p => (fetch p size).1)).flatten, none⟩ := by
  have harith : 1 + (n - 1) = n := by omega
  exact paginateFrom_pure_run fetch size n 1 fuel h1 hfuel
    (fun p hp1 hp2 => hcont p hp1 (by omega)) (by rw [harith]; exact hstop)

/-- The three-page fetch double of test_multiple_pages: has_next true for
pages 1 and 2, false for page 3. -/
def fetchThreePages : Nat → Nat → List JValue × Option JValue :=
  fun page _ =>
    if page = 1 then
      ([.num 1, .num 2], some (.obj [("page", .num 1), ("has_next", .bool true)]))
    else if page = 2 then
      ([.num 3, .num 4], some (.obj [("page", .num 2), ("has_next", .bool true)]))
    else if page = 3 then
      ([.num 5], some (.obj [("page", .num 3), ("has_next", .bool false)]))
    else ([], none)

/-- The metadata-absent fetch double of test_none_meta. -/
def fetchNoMeta : Nat → Nat → List JValue × Option JValue :=
  fun _ _ => ([.num 1], none)

/-- Witness for C4: the three-page scenario fetches exactly pages 1, 2, 3
and yields their five items in page order with no fourth fetch; the
absent-metadata scenario yields the single page's items after one fetch. -/
theorem paginate_terminates_witness :
    paginate_sync (fun p s => .ok (fetchThreePages p s)) 20 5 =
      ⟨[1, 2, 3], [.num 1, .num 2, .num 3, .num 4, .num 5], none⟩
    ∧ paginate_sync (fun p s => .ok (fetchNoMeta p s)) 20 5 =
      ⟨[1], [.num 1], none⟩ := by
  constructor
  · have h := paginate_terminates fetchThreePages 20 3 5 (by omega) (by omega)
      (by intro p h1 h2; interval_cases p <;> rfl) (by rfl)
    rw [h]
    rfl
  · have h := paginate_terminates fetchNoMeta 20 1 5 (by omega) (by omega)
      (by intro p h1 h2; omega) (by rfl)
    rw [h]
    rfl

/-- Claim C5: with max_retries = 2, an exchange that fails at connection
level on its first two attempts and succeeds on the third returns the
success result having run exactly 3 times; with max_retries = 0 the first
connection-level failure propagates at once as the Connection failure
after a single attempt. -/
theorem retry_on_connection_error (exchange : Nat → ExchangeOutcome)
    (m0 m1 : String) (r : Response)
    (h0 : exchange 0 = .connectFailure m0) (h1 : exchange 1 = .connectFailure m1)
    (h2 : exchange 2 = .success r) :
    transportRequest exchange 2 = (.ok r, 3)
    ∧ (∀ ex : Nat → ExchangeOutcome, ∀ m, ex 0 = .connectFailure m →
      transportRequest ex 0 =
        (.error (.connectionError ("Connection error: " ++ m)), 1)) := by
  constructor
  · show attemptLoop exchange 2 0 = (.ok r, 3)
    simp only [attemptLoop, h0, h1, h2]
  · intro ex m hm
    show attemptLoop ex 0 0 = _
    simp only [attemptLoop, hm]

/-- An exchange double that is refused twice, then succeeds. -/
def flakyExchange : Nat → ExchangeOutcome :=
  fun n =>
    if n < 2 then .connectFailure "Connection refused"
    else .success ⟨200, some (.obj [("success", .bool true)]), []⟩

/-- Witness for C5 on the flaky exchange double. -/
theorem retry_on_connection_error_witness :
    transportRequest flakyExchange 2 =
      (.ok ⟨200, some (.obj [("success", .bool true)]), []⟩, 3)
    ∧ transportRequest flakyExchange 0 =
      (.error (.connectionError ("Connection error: " ++ "Connection refused")), 1) := by
  have h := retry_on_connection_error flakyExchange "Connection refused"
    "Connection refused" ⟨200, some (.obj [("success", .bool true)]), []⟩ rfl rfl rfl
  exact ⟨h.1, h.2 flakyExchange "Connection refused" rfl⟩

/-- Claim C6: a key whose value is absent is omitted entirely from the
emitted query pairs — the emitted keys are exactly the keys of the
non-absent entries, in order — a key whose value is a list is emitted as
a single comma-joined value under that key, and the emitted query string
percent-encodes as needed, e.g. vocabulary_ids=SNOMED%2CICD10CM. -/
theorem query_params_serialization (params : List (String × ParamValue)) :
    (buildQueryPairs params).map Prod.fst =
      (params.filter (fun p => !(p.2.isNull))).map Prod.fst
    ∧ (∀ k xs, (k, ParamValue.list xs) ∈ params →
        (k, String.intercalate "," xs) ∈ buildQueryPairs params)
    ∧ queryStringOf [("vocabulary_ids", ParamValue.list ["SNOMED", "ICD10CM"])] =
        "vocabulary_ids=SNOMED%2CICD10CM" := by
  refine ⟨?_, ?_, by decide⟩
  · induction params with
    | nil => rfl
    | cons p rest ih =>
      obtain ⟨k, v⟩ := p
      cases v <;>
        simp [buildQueryPairs, serializeParam, ParamValue.isNull,
          List.filterMap_cons] at ih ⊢ <;>
        exact ih
  · intro k xs hmem
    exact List.mem_filterMap.mpr ⟨(k, .list xs), hmem, by simp [serializeParam]⟩

/-- Witness for C6 on the spec's example mapping: q=x survives, the
absent-valued filter key is omitted, and a list entry joins. -/
theorem query_params_serialization_witness :
    (buildQueryPairs [("q", .str "x"), ("filter", .null)]).map Prod.fst =
      (([("q", .str "x"), ("filter", .null)] :
        List (String × ParamValue)).filter (fun p => !(p.2.isNull))).map Prod.fst
    ∧ ("ids", String.intercalate "," ["SNOMED", "ICD10CM"]) ∈
        buildQueryPairs [("q", .str "x"), ("ids", .list ["SNOMED", "ICD10CM"])] := by
  constructor
  · exact (query_params_serialization [("q", .str "x"), ("filter", .null)]).1
  · exact (query_params_serialization
      [("q", .str "x"), ("ids", .list ["SNOMED", "ICD10CM"])]).2.1
      "ids" ["SNOMED", "ICD10CM"] (by simp)

/-- The blocking and non-blocking semantic iterations agree from every
start page, for every per-page raw envelope behavior and every fuel. -/
theorem semantic_iter_parity_from (fetchRaw : Nat → Nat → Except SDKError JValue)
    (page_size : Nat) :
    ∀ fuel page,
    (let run := paginateFrom (fun p s => (fetchRaw p s).map semanticExtract)
        page_size page fuel
     (run.items, run.failure)) =
      asyncSemanticIterFrom fetchRaw page_size page fuel := by
  intro fuel
  induction fuel with
  | zero => intro page; rfl
  | succ f ih =>
    intro page
    cases hf : fetchRaw page page_size with
    | error e =>
      simp only [paginateFrom, asyncSemanticIterFrom, hf, Except.map]
    | ok result =>
      cases hse : semanticExtract result with
      | mk results meta =>
        cases meta with
        | none =>
          simp only [paginateFrom, asyncSemanticIterFrom, hf, Except.map, hse]
        | some m =>
          by_cases hnext : hasNextTrue m = true
          · have ihnext := ih (page + 1)
            simp only [paginateFrom, asyncSemanticIterFrom, hf, Except.map, hse,
              hnext, if_true]
            have h1 := congrArg Prod.fst ihnext
            have h2 := congrArg Prod.snd ihnext
            simp only at h1 h2
            rw [← h1, ← h2]
            rfl
          · rw [Bool.not_eq_true] at hnext
            simp [paginateFrom, asyncSemanticIterFrom, Except.map, hf, hse, hnext]

/-- Claim C7: given the same sequence of per-page raw envelopes (and the
same typed errors, when a fetch fails), the blocking semantic iteration
(a paginate_sync generator over a fetch_page built on get_raw) and the
non-blocking semantic iteration (an inline loop) yield the identical item
sequence and end with the identical typed error.  The decode and
classification logic itself is a single shared pure function in this
development (handleResponse, classifyResponse), so its parity across the
two execution models is definitional. -/
theorem semantic_iter_parity (fetchRaw : Nat → Nat → Except SDKError JValue)
    (page_size fuel : Nat) :
    syncSemanticIter fetchRaw page_size fuel =
      asyncSemanticIter fetchRaw page_size fuel := by
  exact semantic_iter_parity_from fetchRaw page_size fuel 1

/-- Claim C8: close is idempotent on the transport client state: a second
close succeeds (close is a total operation that cannot fail), the
connection stays released, and no new connection object is created by
closing again. -/
theorem close_idempotent (s : HTTPClientState) :
    closeClient (closeClient s) = closeClient s
    ∧ (closeClient s).client = none
    ∧ (closeClient (closeClient s)).created = s.created := by
  exact ⟨rfl, rfl, rfl⟩

/-- Claim C9: constructing a client — blocking or non-blocking, both share
this construction — with no api_key argument and no configured default
API key fails with the Authentication failure at construction time (the
construction is pure, so no network request is involved); with a key from
either source it succeeds. -/
theorem client_requires_api_key (base_url : String) :
    clientInit none none base_url =
      .error (.authenticationError ⟨"No API key provided", none, none, none, none⟩)
    ∧ (∀ k d, clientInit (some k) d base_url = .ok ⟨k, stripTrailingSlashes base_url⟩)
    ∧ (∀ k, clientInit none (some k) base_url =
        .ok ⟨k, stripTrailingSlashes base_url⟩) := by
  exact ⟨rfl, fun k d => rfl, fun k => rfl⟩

/-- Claim C10: the similar operation (the blocking and non-blocking
variants share this body) fails with the ValueError before any request is
issued when the number of provided inputs among concept_id, concept_name
and query differs from one, and with exactly one provided input it
proceeds to post a body to /search/similar. -/
theorem similar_requires_exactly_one_input (cid : Option Int)
    (cname q : Option String) (alg : String) (thr : Rat) (ps : Int)
    (vids dids : Option (List String)) (sc : Option String)
    (ii isc ie : Option Bool) :
    (similarInputCount cid cname q ≠ 1 →
      similarRequest cid cname q alg thr ps vids dids sc ii isc ie =
        .error "Exactly one of concept_id, concept_name, or query must be provided")
    ∧ (similarInputCount cid cname q = 1 →
      ∃ body, similarRequest cid cname q alg thr ps vids dids sc ii isc ie =
        .ok ("/search/similar", body)) := by
  constructor
  · intro h
    unfold similarRequest
    rw [if_pos h]
  · intro h
    unfold similarRequest
    rw [if_neg (by simp [h])]
    exact ⟨_, rfl⟩

/-- Witness for C10: zero provided inputs raise the ValueError; a single
concept_id proceeds to the post. -/
theorem similar_requires_exactly_one_input_witness :
    similarRequest none none none "hybrid" 0.7 20 none none none none none none =
      .error "Exactly one of concept_id, concept_name, or query must be provided"
    ∧ ∃ body, similarRequest (some 201826) none none "hybrid" 0.7 20
        none none none none none none = .ok ("/search/similar", body) := by
  constructor
  · exact (similar_requires_exactly_one_input none none none "hybrid" 0.7 20
      none none none none none none).1 (by decide)
  · exact (similar_requires_exactly_one_input (some 201826) none none "hybrid" 0.7 20
      none none none none none none).2 (by decide)

end OmopHub
